import Mathlib

/-
Shallow embedding of the AI usage-metering and quota-enforcement code of
the backend application:

  * backend/app/models/token_usage.py   (AI_PRICING, calculate_cost, AiTokenUsage)
  * backend/app/models/family.py        (FamilyAiLimit)
  * backend/app/services/ai_service.py  (AIService._check_token_limit,
                                         AIService._log_token_usage, feature calls)
  * backend/app/routers/admin.py        (update_family_ai_limits)
  * backend/app/routers/auth.py         (FamilyAiLimit creation at registration)

Conventions of the embedding:
  * Python floats holding money are modelled as exact rationals (ℚ).
  * Python's round(x, 6) is modelled as round-half-to-even at six fractional
    digits over ℚ.
  * Nullable database columns are modelled as Option; Python's
    truthiness-based `x or default` idiom is modelled by `pyOr` /
    `pyTruthyInt` (both None and 0 are falsy).
  * The database session handed to the service is always present (the
    routers always pass one), so the `if not db` guards are not modelled.
  * State is per tenant: one optional FamilyAiLimit row plus the tenant's
    slice of the append-only ai_token_usage table.
-/

/-- Python's truthiness-based `x or default` on an optional numeric field:
both `None` and `0` are falsy and replaced by the default. -/
def pyOr (v : Option ℚ) (d : ℚ) : ℚ :=
  match v with
  | none => d
  | some x => if x = 0 then d else x

/-- Python truthiness of an optional integer (`family_id`): `None` and `0`
are falsy. -/
def pyTruthyInt (v : Option ℤ) : Bool :=
  match v with
  | none => false
  | some n => n ≠ 0

/-- Round a rational to the nearest integer, ties to even — the rounding mode
of Python's built-in `round`. -/
def roundHalfEven (x : ℚ) : ℤ :=
  if x - ⌊x⌋ < 1/2 then ⌊x⌋
  else if 1/2 < x - ⌊x⌋ then ⌊x⌋ + 1
  else if ⌊x⌋ % 2 = 0 then ⌊x⌋ else ⌊x⌋ + 1

/-- Python's `round(x, 6)`: round half to even at six fractional digits. -/
def round6 (x : ℚ) : ℚ :=
  (roundHalfEven (x * 1000000) : ℚ) / 1000000

/-- The AI_PRICING dict of token_usage.py: model identifier ↦
(input price per 1K tokens, output price per 1K tokens); `none` when the
model is not a key of the dict. -/
def AI_PRICING (model : String) : Option (ℚ × ℚ) :=
  if model = "gpt-4-vision-preview" then some (1/100, 3/100)
  else if model = "gpt-4" then some (3/100, 6/100)
  else if model = "gpt-4-turbo" then some (1/100, 3/100)
  else if model = "gpt-3.5-turbo" then some (5/10000, 15/10000)
  else none

/-- The dictionary lookup `AI_PRICING.get(model, AI_PRICING["gpt-4"])` of
`calculate_cost`: the model's entry, falling back to the table's "gpt-4"
entry for models absent from the dict. -/
def price_of (model : String) : ℚ × ℚ :=
  match AI_PRICING model with
  | some p => p
  | none => (AI_PRICING "gpt-4").getD (0, 0)

/-- `calculate_cost` of token_usage.py:
`round(prompt/1000 * input + completion/1000 * output, 6)` with the prices
from `AI_PRICING.get(model, AI_PRICING["gpt-4"])`. -/
def calculate_cost (model : String) (prompt_tokens completion_tokens : ℕ) : ℚ :=
  let pricing := price_of model
  let input_cost := (prompt_tokens : ℚ) / 1000 * pricing.1
  let output_cost := (completion_tokens : ℚ) / 1000 * pricing.2
  round6 (input_cost + output_cost)

/-- A FamilyAiLimit row (family.py).  `reset_date` is the nullable Date
column, modelled as an abstract day number. -/
structure FamilyAiLimitRow where
  monthly_token_limit : ℤ
  current_month_usage : ℤ
  monthly_cost_limit_usd : Option ℚ
  current_month_cost_usd : Option ℚ
  reset_date : Option ℤ
deriving DecidableEq

/-- An ai_token_usage row (token_usage.py), as written by
`AIService._log_token_usage`. -/
structure AiTokenUsageRow where
  family_id : Option ℤ
  user_id : Option ℤ
  feature_used : String
  model_used : String
  prompt_tokens : ℕ
  completion_tokens : ℕ
  total_tokens : ℕ
  cost_usd : ℚ
deriving DecidableEq

/-- The per-tenant persistent state the metering code touches: the tenant's
FamilyAiLimit row (if any) and the tenant's slice of the append-only
ai_token_usage table. -/
structure TenantState where
  ai_limit : Option FamilyAiLimitRow
  ledger : List AiTokenUsageRow
deriving DecidableEq

/-- The `usage` object of an OpenAI response (`response.usage`). -/
structure ResponseUsage where
  prompt_tokens : ℕ
  completion_tokens : ℕ
  total_tokens : ℕ
deriving DecidableEq

/-- `AIService._check_token_limit` (ai_service.py:22-37).  Returns `true`
when the call is allowed and `false` when `TokenLimitExceededError` is
raised.  The source only reads: it performs no mutation.  Falsy `family_id`
(None or 0) and a missing FamilyAiLimit row both let the call through.
`current_cost` and `cost_limit` use the Python `or` defaults 0.0 and 0.20. -/
def check_token_limit (family_id : Option ℤ) (st : TenantState) : Bool :=
  if pyTruthyInt family_id = false then true
  else
    match st.ai_limit with
    | none => true
    | some r =>
      let current_cost := pyOr r.current_month_cost_usd 0
      let cost_limit := pyOr r.monthly_cost_limit_usd (1/5)
      decide (current_cost < cost_limit)

/-- `AIService._log_token_usage` (ai_service.py:39-77).  When the response
carries a usage object: compute the cost with `calculate_cost`, append one
ai_token_usage row, and — only when `family_id` is truthy and the tenant has
a FamilyAiLimit row — add the total tokens to `current_month_usage` and the
cost to `current_month_cost_usd` (read through the `or 0.0` default).
`reset_date` and the limits are never touched. -/
def log_token_usage (st : TenantState) (model feature : String)
    (response_usage : Option ResponseUsage) (family_id user_id : Option ℤ) :
    TenantState :=
  match response_usage with
  | none => st
  | some u =>
    let total := u.total_tokens
    let cost := calculate_cost model u.prompt_tokens u.completion_tokens
    let row : AiTokenUsageRow :=
      { family_id := family_id
        user_id := user_id
        feature_used := feature
        model_used := model
        prompt_tokens := u.prompt_tokens
        completion_tokens := u.completion_tokens
        total_tokens := total
        cost_usd := cost }
    let st1 : TenantState := { st with ledger := st.ledger ++ [row] }
    if pyTruthyInt family_id then
      match st1.ai_limit with
      | some r =>
        { st1 with ai_limit := some { r with
            current_month_usage := r.current_month_usage + (total : ℤ)
            current_month_cost_usd := some (pyOr r.current_month_cost_usd 0 + cost) } }
      | none => st1
    else st1

/-- The metering portion of one AIService feature invocation
(e.g. `analyze_homework`): `_check_token_limit` gates the call; when it
passes, the external completion call happens and `_log_token_usage` records
its usage; when it raises, the state is untouched and no call is made.
`today` models the clock available to the service — the source never
consults it in either `_check_token_limit` or `_log_token_usage`. -/
def ai_call (today : ℤ) (st : TenantState) (model feature : String)
    (response_usage : Option ResponseUsage) (family_id user_id : Option ℤ) :
    TenantState :=
  if check_token_limit family_id st then
    log_token_usage st model feature response_usage family_id user_id
  else st

/-- A sequence of AIService feature invocations on one tenant, in order:
each element is (model, feature, response usage). -/
def run_calls (today : ℤ) (family_id user_id : Option ℤ)
    (calls : List (String × String × ResponseUsage)) (st : TenantState) :
    TenantState :=
  calls.foldl (fun s c => ai_call today s c.1 c.2.1 (some c.2.2) family_id user_id) st

/-- `update_family_ai_limits` (admin.py:369-396), the body after the
family-exists check.  The endpoint accepts only `monthly_token_limit`:
an existing row gets that one field overwritten; a missing row is created
with the supplied token limit, `current_month_usage = 0` and the column
defaults for the cost fields (limit $0.20, usage $0.0, no reset date). -/
def update_family_ai_limits (st : TenantState) (monthly_token_limit : ℤ) :
    TenantState :=
  match st.ai_limit with
  | some r =>
    { st with ai_limit := some { r with monthly_token_limit := monthly_token_limit } }
  | none =>
    let fresh : FamilyAiLimitRow :=
      { monthly_token_limit := monthly_token_limit
        current_month_usage := 0
        monthly_cost_limit_usd := some (1/5)
        current_month_cost_usd := some 0
        reset_date := none }
    { st with ai_limit := some fresh }

/-- The FamilyAiLimit row created at family registration
(auth.py:222-239): 100000 tokens, the configured default cost limit
(fallback $0.20), zero counters, no reset date. -/
def register_family_ai_limit (default_cost_limit_usd : ℚ) : FamilyAiLimitRow :=
  { monthly_token_limit := 100000
    current_month_usage := 0
    monthly_cost_limit_usd := some default_cost_limit_usd
    current_month_cost_usd := some 0
    reset_date := none }

/-- The model identifier each AIService feature passes to the completion
call and to `_log_token_usage`, in source order: analyze_homework,
generate_worksheet, grade_worksheet, extract_tasks_from_image,
get_parent_suggestions, extract_quran_page_info (ai_service.py:123, 213,
278, 346, 430, 483). -/
def ai_service_models : List String :=
  ["gpt-4o", "gpt-4o", "gpt-4o", "gpt-4o", "gpt-4o", "gpt-4o"]

lemma price_of_default (m : String) (hm : AI_PRICING m = none) :
    price_of m = (3/100, 6/100) := by
  unfold price_of
  rw [hm]
  simp [AI_PRICING]

lemma price_of_nonneg (m : String) : 0 ≤ (price_of m).1 ∧ 0 ≤ (price_of m).2 := by
  unfold price_of AI_PRICING
  split_ifs <;> norm_num

lemma roundHalfEven_intCast (n : ℤ) : roundHalfEven (n : ℚ) = n := by
  unfold roundHalfEven
  simp

lemma round6_int (x : ℚ) (n : ℤ) (h : x * 1000000 = (n : ℚ)) :
    round6 x = (n : ℚ) / 1000000 := by
  unfold round6
  rw [h, roundHalfEven_intCast]

lemma roundHalfEven_bounds (x : ℚ) :
    x - 1/2 ≤ (roundHalfEven x : ℚ) ∧ (roundHalfEven x : ℚ) ≤ x + 1/2 := by
  unfold roundHalfEven
  have h1 : ((⌊x⌋ : ℤ) : ℚ) ≤ x := Int.floor_le x
  have h2 : x < (⌊x⌋ : ℚ) + 1 := Int.lt_floor_add_one x
  split_ifs <;> constructor <;> push_cast <;> linarith

lemma roundHalfEven_mono {x y : ℚ} (h : x ≤ y) : roundHalfEven x ≤ roundHalfEven y := by
  by_contra hc
  push_neg at hc
  have hc' : roundHalfEven y + 1 ≤ roundHalfEven x := hc
  have hx := roundHalfEven_bounds x
  have hy := roundHalfEven_bounds y
  have hcq : (roundHalfEven y : ℚ) + 1 ≤ (roundHalfEven x : ℚ) := by exact_mod_cast hc'
  have hxy : x = y := by linarith [hx.1, hx.2, hy.1, hy.2]
  rw [hxy] at hc
  exact lt_irrefl _ hc

lemma round6_mono {x y : ℚ} (h : x ≤ y) : round6 x ≤ round6 y := by
  unfold round6
  have hm := roundHalfEven_mono (x := x * 1000000) (y := y * 1000000) (by linarith)
  have hq : ((roundHalfEven (x * 1000000) : ℤ) : ℚ) ≤ ((roundHalfEven (y * 1000000) : ℤ) : ℚ) := by
    exact_mod_cast hm
  gcongr

lemma roundHalfEven_nonneg {x : ℚ} (h : 0 ≤ x) : 0 ≤ roundHalfEven x := by
  have := roundHalfEven_mono (x := (0:ℚ)) (y := x) h
  have h0 : roundHalfEven 0 = 0 := by
    have := roundHalfEven_intCast 0
    simpa using this
  omega

lemma round6_nonneg {x : ℚ} (h : 0 ≤ x) : 0 ≤ round6 x := by
  unfold round6
  have h0 : (0:ℤ) ≤ roundHalfEven (x * 1000000) := roundHalfEven_nonneg (by linarith)
  have h0q : (0:ℚ) ≤ (roundHalfEven (x * 1000000) : ℚ) := by exact_mod_cast h0
  exact div_nonneg h0q (by norm_num)

lemma calculate_cost_mono (m : String) {a a' b b' : ℕ} (ha : a ≤ a') (hb : b ≤ b') :
    calculate_cost m a b ≤ calculate_cost m a' b' := by
  unfold calculate_cost
  apply round6_mono
  have hp := price_of_nonneg m
  have haq : (a:ℚ) ≤ (a':ℚ) := by exact_mod_cast ha
  have hbq : (b:ℚ) ≤ (b':ℚ) := by exact_mod_cast hb
  gcongr
  exact hp.1
  exact hp.2

lemma calculate_cost_nonneg (m : String) (a b : ℕ) : 0 ≤ calculate_cost m a b := by
  unfold calculate_cost
  apply round6_nonneg
  have hp := price_of_nonneg m
  apply add_nonneg
  · exact mul_nonneg (by positivity) hp.1
  · exact mul_nonneg (by positivity) hp.2

lemma price_of_gpt4 : price_of "gpt-4" = (3/100, 6/100) := by
  simp [price_of, AI_PRICING]

lemma calculate_cost_unknown_model (m : String) (hm : AI_PRICING m = none)
    (a b : ℕ) : calculate_cost m a b = calculate_cost "gpt-4" a b := by
  unfold calculate_cost
  rw [price_of_default m hm, price_of_gpt4]

lemma AI_PRICING_gpt4o : AI_PRICING "gpt-4o" = none := by decide

/-- Claim C6: `calculate_cost(model, a, b)` is a pure deterministic function
equal to `a/1000 * price_in + b/1000 * price_out` rounded half-to-even at six
fractional digits, it is monotonically non-decreasing in both token counts,
and for a model absent from AI_PRICING it uses the table's "gpt-4" default
entry. -/
theorem C6_cost_of_pure_monotone_default :
    (∀ m a b, calculate_cost m a b =
      round6 ((a : ℚ) / 1000 * (price_of m).1 + (b : ℚ) / 1000 * (price_of m).2)) ∧
    (∀ m a a' b b', a ≤ a' → b ≤ b' →
      calculate_cost m a b ≤ calculate_cost m a' b') ∧
    (∀ m a b, AI_PRICING m = none →
      calculate_cost m a b = calculate_cost "gpt-4" a b) := by
  refine ⟨fun m a b => rfl, fun m a a' b b' ha hb => calculate_cost_mono m ha hb,
    fun m a b hm => calculate_cost_unknown_model m hm a b⟩

/-- Witness for C6 at concrete inputs. -/
theorem C6_cost_of_witness :
    ((100 ≤ 150 ∧ 200 ≤ 300) ∧
      calculate_cost "gpt-4o" 100 200 ≤ calculate_cost "gpt-4o" 150 300) ∧
    (AI_PRICING "gpt-4o" = none ∧
      calculate_cost "gpt-4o" 10 20 = calculate_cost "gpt-4" 10 20) :=
  ⟨⟨⟨by norm_num, by norm_num⟩,
      C6_cost_of_pure_monotone_default.2.1 "gpt-4o" 100 150 200 300
        (by norm_num) (by norm_num)⟩,
  ⟨AI_PRICING_gpt4o,
      C6_cost_of_pure_monotone_default.2.2 "gpt-4o" 10 20 AI_PRICING_gpt4o⟩⟩

/-- Claim C10: every AIService feature passes the model identifier "gpt-4o"
to cost computation; "gpt-4o" has no entry in AI_PRICING, so every recorded
cost equals the default "gpt-4" per-1K prices ($0.03 in, $0.06 out) applied
to the invocation's prompt and completion token counts. -/
theorem C10_gpt4o_default_pricing :
    ai_service_models = List.replicate 6 "gpt-4o" ∧
    AI_PRICING "gpt-4o" = none ∧
    (∀ a b, calculate_cost "gpt-4o" a b = calculate_cost "gpt-4" a b) ∧
    (∀ a b, calculate_cost "gpt-4o" a b =
      round6 ((a : ℚ) / 1000 * (3/100) + (b : ℚ) / 1000 * (6/100))) := by
  refine ⟨rfl, AI_PRICING_gpt4o,
    fun a b => calculate_cost_unknown_model "gpt-4o" AI_PRICING_gpt4o a b,
    fun a b => ?_⟩
  unfold calculate_cost
  rw [price_of_default "gpt-4o" AI_PRICING_gpt4o]

lemma check_token_limit_some (fid : ℤ) (hfid : fid ≠ 0) (st : TenantState)
    (r : FamilyAiLimitRow) (hr : st.ai_limit = some r) :
    check_token_limit (some fid) st =
      decide (pyOr r.current_month_cost_usd 0 < pyOr r.monthly_cost_limit_usd (1/5)) := by
  unfold check_token_limit
  simp [pyTruthyInt, hfid, hr]

/-- The ai_token_usage row `_log_token_usage` builds from a response with a
usage object. -/
def logged_row (model feature : String) (u : ResponseUsage)
    (family_id user_id : Option ℤ) : AiTokenUsageRow :=
  { family_id := family_id
    user_id := user_id
    feature_used := feature
    model_used := model
    prompt_tokens := u.prompt_tokens
    completion_tokens := u.completion_tokens
    total_tokens := u.total_tokens
    cost_usd := calculate_cost model u.prompt_tokens u.completion_tokens }

lemma log_token_usage_some (st : TenantState) (r : FamilyAiLimitRow)
    (model feature : String) (u : ResponseUsage) (fid : ℤ) (uid : Option ℤ)
    (hr : st.ai_limit = some r) (hfid : fid ≠ 0) :
    log_token_usage st model feature (some u) (some fid) uid =
      { ai_limit := some { r with
          current_month_usage := r.current_month_usage + (u.total_tokens : ℤ),
          current_month_cost_usd := some (pyOr r.current_month_cost_usd 0 +
            calculate_cost model u.prompt_tokens u.completion_tokens) },
        ledger := st.ledger ++ [logged_row model feature u (some fid) uid] } := by
  unfold log_token_usage logged_row
  simp [pyTruthyInt, hfid, hr]

lemma ai_call_granted (today : ℤ) (st : TenantState) (model feature : String)
    (u : Option ResponseUsage) (fid uid : Option ℤ)
    (h : check_token_limit fid st = true) :
    ai_call today st model feature u fid uid =
      log_token_usage st model feature u fid uid := by
  unfold ai_call
  rw [h]
  simp

lemma ai_call_denied (today : ℤ) (st : TenantState) (model feature : String)
    (u : Option ResponseUsage) (fid uid : Option ℤ)
    (h : check_token_limit fid st = false) :
    ai_call today st model feature u fid uid = st := by
  unfold ai_call
  rw [h]
  simp

/-- The FamilyAiLimit row of the spec's §8 scenario: limit $0.20, $0.03
already used this month. -/
def rowScenario : FamilyAiLimitRow :=
  { monthly_token_limit := 100000
    current_month_usage := 0
    monthly_cost_limit_usd := some (1/5)
    current_month_cost_usd := some (3/100)
    reset_date := none }

def stScenario : TenantState := { ai_limit := some rowScenario, ledger := [] }

/-- Claim C1 counterexample: with limit $0.20 and cost_used $0.03, the claim
mandates denial of a reserve with estimated cost $0.18 (0.03 + 0.18 > 0.20),
but `_check_token_limit` grants the call — the estimated cost never enters
the check. -/
theorem C1_counterexample :
    check_token_limit (some 1) stScenario = true ∧
    ¬ ((3 : ℚ)/100 + 18/100 ≤ 1/5) := by
  constructor
  · rw [check_token_limit_some 1 one_ne_zero stScenario rowScenario rfl]
    norm_num [pyOr, rowScenario]
  · norm_num

/-- Claim C1 (amended): the pre-call check ignores the estimated cost
entirely: for a truthy family id and an existing FamilyAiLimit row it grants
iff `current_month_cost_usd` (through the `or 0.0` default) is strictly below
`monthly_cost_limit_usd` (through the `or 0.20` default), and a denied check
leaves the tenant state unchanged — no mutation and no external call. -/
theorem C1_check_ignores_estimate (today fid : ℤ) (st : TenantState)
    (r : FamilyAiLimitRow) (model feature : String) (u : Option ResponseUsage)
    (uid : Option ℤ) (hfid : fid ≠ 0) (hr : st.ai_limit = some r) :
    (check_token_limit (some fid) st = true ↔
      pyOr r.current_month_cost_usd 0 < pyOr r.monthly_cost_limit_usd (1/5)) ∧
    (check_token_limit (some fid) st = false →
      ai_call today st model feature u (some fid) uid = st) := by
  constructor
  · rw [check_token_limit_some fid hfid st r hr]
    simp
  · intro hd
    exact ai_call_denied today st model feature u (some fid) uid hd

/-- Witness for C1 (amended) at the spec's scenario state. -/
theorem C1_check_ignores_estimate_witness :
    (check_token_limit (some 1) stScenario = true ↔
      pyOr rowScenario.current_month_cost_usd 0 <
        pyOr rowScenario.monthly_cost_limit_usd (1/5)) ∧
    (check_token_limit (some 1) stScenario = false →
      ai_call 20250302 stScenario "gpt-4o" "homework_analysis" none (some 1) none =
        stScenario) :=
  C1_check_ignores_estimate 20250302 1 stScenario rowScenario "gpt-4o"
    "homework_analysis" none none one_ne_zero rfl

/-- A FamilyAiLimit row whose cost limit is stored as exactly 0. -/
def rowZeroLimit : FamilyAiLimitRow :=
  { monthly_token_limit := 100000
    current_month_usage := 0
    monthly_cost_limit_usd := some 0
    current_month_cost_usd := some 0
    reset_date := none }

def stZeroLimit : TenantState := { ai_limit := some rowZeroLimit, ledger := [] }

/-- A FamilyAiLimit row with a negative cost limit. -/
def rowNegLimit : FamilyAiLimitRow :=
  { monthly_token_limit := 100000
    current_month_usage := 0
    monthly_cost_limit_usd := some (-1)
    current_month_cost_usd := some 0
    reset_date := none }

def stNegLimit : TenantState := { ai_limit := some rowNegLimit, ledger := [] }

/-- Claim C2 counterexample: a tenant whose monthly_cost_limit_usd is stored
as 0 does NOT have all reservations fail — `0` is falsy in Python, so
`monthly_cost_limit_usd or 0.20` silently substitutes the default $0.20 and
the check passes while the current cost is below $0.20. -/
theorem C2_counterexample :
    rowZeroLimit.monthly_cost_limit_usd = some 0 ∧
    check_token_limit (some 1) stZeroLimit = true := by
  constructor
  · rfl
  · rw [check_token_limit_some 1 one_ne_zero stZeroLimit rowZeroLimit rfl]
    norm_num [pyOr, rowZeroLimit]

/-- Claim C2 (amended): with a strictly negative stored cost limit every
pre-call check fails (the nonnegative current cost is always ≥ the limit);
with a stored limit of exactly 0 the Python `or` replaces it by the default
$0.20, and the check passes iff the current cost is below $0.20. -/
theorem C2_nonpositive_limit (fid : ℤ) (st : TenantState) (r : FamilyAiLimitRow)
    (l : ℚ) (hfid : fid ≠ 0) (hr : st.ai_limit = some r)
    (hl : r.monthly_cost_limit_usd = some l) :
    (l < 0 → 0 ≤ pyOr r.current_month_cost_usd 0 →
      check_token_limit (some fid) st = false) ∧
    (l = 0 →
      (check_token_limit (some fid) st = true ↔
        pyOr r.current_month_cost_usd 0 < 1/5)) := by
  constructor
  · intro hneg hcost
    rw [check_token_limit_some fid hfid st r hr, hl]
    have hln : pyOr (some l) (1/5) = l := by
      simp [pyOr, ne_of_lt hneg]
    rw [hln]
    exact decide_eq_false (not_lt.mpr (hneg.le.trans hcost))
  · intro h0
    rw [check_token_limit_some fid hfid st r hr, hl, h0]
    have : pyOr (some (0:ℚ)) (1/5) = 1/5 := by simp [pyOr]
    rw [this]
    simp

/-- Witness for C2 (amended): the negative-limit branch denies at a concrete
state. -/
theorem C2_nonpositive_limit_witness :
    check_token_limit (some 1) stNegLimit = false :=
  (C2_nonpositive_limit 1 stNegLimit rowNegLimit (-1) one_ne_zero rfl rfl).1
    (by norm_num) (by norm_num [rowNegLimit, pyOr])

/-- A tenant with some existing usage and a $0.50 cost limit, used to show
what the admin endpoint does and does not touch. -/
def rowAdmin : FamilyAiLimitRow :=
  { monthly_token_limit := 100000
    current_month_usage := 42
    monthly_cost_limit_usd := some (1/2)
    current_month_cost_usd := some (7/100)
    reset_date := none }

def stAdmin : TenantState := { ai_limit := some rowAdmin, ledger := [] }

/-- Claim C8 counterexample: `update_family_ai_limits` accepts no cost-limit
argument at all; after updating the token limit to 5000, the tenant's cost
limit is still the old $0.50, so the endpoint cannot set "both the monthly
token limit and the monthly cost limit to the supplied values". -/
theorem C8_counterexample :
    ((update_family_ai_limits stAdmin 5000).ai_limit).map
        (fun r => r.monthly_token_limit) = some 5000 ∧
    ((update_family_ai_limits stAdmin 5000).ai_limit).map
        (fun r => r.monthly_cost_limit_usd) = some (some (1/2)) := by
  constructor <;> rfl

/-- Claim C8 (amended): `update_family_ai_limits` takes only a token limit;
for an existing FamilyAiLimit row it overwrites `monthly_token_limit` with
the supplied value and leaves `current_month_usage`,
`current_month_cost_usd`, `monthly_cost_limit_usd` and `reset_date`
unchanged, and it writes no usage records. -/
theorem C8_update_token_limit_only (st : TenantState) (r : FamilyAiLimitRow)
    (n : ℤ) (hr : st.ai_limit = some r) :
    (update_family_ai_limits st n).ai_limit =
      some { r with monthly_token_limit := n } ∧
    (update_family_ai_limits st n).ledger = st.ledger := by
  unfold update_family_ai_limits
  rw [hr]
  exact ⟨rfl, rfl⟩

/-- Witness for C8 (amended) at a concrete tenant. -/
theorem C8_update_token_limit_only_witness :
    (update_family_ai_limits stAdmin 5000).ai_limit =
      some { rowAdmin with monthly_token_limit := 5000 } ∧
    (update_family_ai_limits stAdmin 5000).ledger = stAdmin.ledger :=
  C8_update_token_limit_only stAdmin rowAdmin 5000 rfl

/-- A tenant with no FamilyAiLimit row at all. -/
def stNoConfig : TenantState := { ai_limit := none, ledger := [] }

def usageSmall : ResponseUsage :=
  { prompt_tokens := 1000, completion_tokens := 500, total_tokens := 1500 }

/-- Claim C9 counterexample: quota-enforcement operations run happily with no
QuotaConfig at all — the pre-call check passes, and usage logging appends a
ledger record while neither finding nor creating a FamilyAiLimit row. -/
theorem C9_counterexample :
    stNoConfig.ai_limit = none ∧
    check_token_limit (some 1) stNoConfig = true ∧
    (log_token_usage stNoConfig "gpt-4o" "homework_analysis" (some usageSmall)
        (some 1) none).ai_limit = none ∧
    (log_token_usage stNoConfig "gpt-4o" "homework_analysis" (some usageSmall)
        (some 1) none).ledger.length = 1 := by
  refine ⟨rfl, ?_, ?_, ?_⟩ <;> rfl

/-- Claim C9 (amended): a FamilyAiLimit row is created explicitly (at family
registration, with zero counters), not lazily by the enforcement operations:
when the row is missing, the pre-call check passes, and usage logging leaves
the row absent while still appending the usage record. -/
theorem C9_no_lazy_config (st : TenantState) (model feature : String)
    (u : Option ResponseUsage) (fid uid : Option ℤ)
    (h : st.ai_limit = none) :
    check_token_limit fid st = true ∧
    (log_token_usage st model feature u fid uid).ai_limit = none ∧
    (∀ d, (register_family_ai_limit d).current_month_usage = 0 ∧
      (register_family_ai_limit d).current_month_cost_usd = some 0) := by
  refine ⟨?_, ?_, fun d => ⟨rfl, rfl⟩⟩
  · unfold check_token_limit
    rw [h]
    split <;> rfl
  · cases u with
    | none => simpa [log_token_usage] using h
    | some v =>
      cases hf : pyTruthyInt fid <;> simp [log_token_usage, h, hf]

/-- Witness for C9 (amended) at the configless tenant. -/
theorem C9_no_lazy_config_witness :
    check_token_limit (some 1) stNoConfig = true ∧
    (log_token_usage stNoConfig "gpt-4o" "homework_analysis" (some usageSmall)
        (some 1) none).ai_limit = none ∧
    (∀ d, (register_family_ai_limit d).current_month_usage = 0 ∧
      (register_family_ai_limit d).current_month_cost_usd = some 0) :=
  C9_no_lazy_config stNoConfig "gpt-4o" "homework_analysis" (some usageSmall)
    (some 1) none rfl

lemma pyOr_some_zero (x : ℚ) : pyOr (some x) 0 = x := by
  rcases eq_or_ne x 0 with h | h <;> simp [pyOr, h]

lemma check_token_limit_true_truthy (fid : Option ℤ) (st : TenantState)
    (r : FamilyAiLimitRow) (hr : st.ai_limit = some r)
    (hf : pyTruthyInt fid = true) (hchk : check_token_limit fid st = true) :
    pyOr r.current_month_cost_usd 0 < pyOr r.monthly_cost_limit_usd (1/5) := by
  unfold check_token_limit at hchk
  rw [hf] at hchk
  simp [hr] at hchk
  have h5 : (1 : ℚ)/5 = 5⁻¹ := by norm_num
  rw [h5]
  exact hchk

lemma log_token_usage_ai_limit_cases (st : TenantState) (model feature : String)
    (u : Option ResponseUsage) (fid uid : Option ℤ) (r : FamilyAiLimitRow)
    (hr : st.ai_limit = some r) :
    (log_token_usage st model feature u fid uid).ai_limit = some r ∨
    (∃ v, u = some v ∧ pyTruthyInt fid = true ∧
      (log_token_usage st model feature u fid uid).ai_limit = some { r with
        current_month_usage := r.current_month_usage + (v.total_tokens : ℤ),
        current_month_cost_usd := some (pyOr r.current_month_cost_usd 0 +
          calculate_cost model v.prompt_tokens v.completion_tokens) }) := by
  cases u with
  | none =>
    left
    simpa [log_token_usage] using hr
  | some v =>
    cases hf : pyTruthyInt fid with
    | false =>
      left
      simp [log_token_usage, hf, hr]
    | true =>
      right
      exact ⟨v, rfl, rfl, by simp [log_token_usage, hf, hr]⟩

/-- The tenant of the spec's rollover example: period_end (reset_date)
2025-03-01 already elapsed, nonzero counters. -/
def rowRollover : FamilyAiLimitRow :=
  { monthly_token_limit := 100000
    current_month_usage := 500
    monthly_cost_limit_usd := some (1/5)
    current_month_cost_usd := some (3/100)
    reset_date := some 20250301 }

def stRollover : TenantState := { ai_limit := some rowRollover, ledger := [] }

/-- The state of the rollover-example tenant after one successful gpt-4o call
with 1000 prompt and 500 completion tokens: counters grew, reset_date did
not move. -/
def rowRolloverAfter : FamilyAiLimitRow :=
  { monthly_token_limit := 100000
    current_month_usage := 2000
    monthly_cost_limit_usd := some (1/5)
    current_month_cost_usd := some (3/100 + calculate_cost "gpt-4o" 1000 500)
    reset_date := some 20250301 }

lemma stRollover_check : check_token_limit (some 1) stRollover = true := by
  rw [check_token_limit_some 1 one_ne_zero stRollover rowRollover rfl]
  norm_num [pyOr, rowRollover]

lemma stRollover_after :
    (ai_call 20250302 stRollover "gpt-4o" "homework_analysis" (some usageSmall)
      (some 1) none).ai_limit = some rowRolloverAfter := by
  rw [ai_call_granted 20250302 stRollover "gpt-4o" "homework_analysis"
      (some usageSmall) (some 1) none stRollover_check,
    log_token_usage_some stRollover rowRollover "gpt-4o" "homework_analysis"
      usageSmall 1 none rfl one_ne_zero]
  simp only [rowRollover, rowRolloverAfter, usageSmall]
  norm_num [pyOr]

/-- Claim C3 counterexample: a request on 2025-03-02 against
reset_date 2025-03-01 leaves reset_date at 2025-03-01 (not advanced to
2025-04-01) and grows the token counter from 500 to 2000 instead of
resetting it — the code performs no rollover whatsoever. -/
theorem C3_counterexample :
    rowRollover.reset_date = some 20250301 ∧
    (20250301 : ℤ) ≤ 20250302 ∧
    ((ai_call 20250302 stRollover "gpt-4o" "homework_analysis" (some usageSmall)
        (some 1) none).ai_limit).map (fun r => r.reset_date) =
      some (some 20250301) ∧
    ((ai_call 20250302 stRollover "gpt-4o" "homework_analysis" (some usageSmall)
        (some 1) none).ai_limit).map (fun r => r.current_month_usage) =
      some 2000 ∧
    some (some (20250301 : ℤ)) ≠ some (some (20250401 : ℤ)) ∧
    (2000 : ℤ) ≠ 0 := by
  refine ⟨rfl, by norm_num, ?_, ?_, by norm_num, by norm_num⟩ <;>
  · rw [stRollover_after]
    rfl

/-- Claim C3 (amended): no rollover is implemented: regardless of the date,
every metering operation leaves `reset_date` and both limits untouched and
never resets the usage counters — they only grow (by the call's tokens and a
nonnegative cost); the pre-call check is evaluated against the un-reset
counters. -/
theorem C3_no_rollover (today : ℤ) (st : TenantState) (model feature : String)
    (u : Option ResponseUsage) (fid uid : Option ℤ) (r r' : FamilyAiLimitRow)
    (hr : st.ai_limit = some r)
    (hr' : (ai_call today st model feature u fid uid).ai_limit = some r') :
    r'.reset_date = r.reset_date ∧
    r'.monthly_token_limit = r.monthly_token_limit ∧
    r'.monthly_cost_limit_usd = r.monthly_cost_limit_usd ∧
    r.current_month_usage ≤ r'.current_month_usage ∧
    pyOr r.current_month_cost_usd 0 ≤ pyOr r'.current_month_cost_usd 0 := by
  cases hchk : check_token_limit fid st with
  | false =>
    rw [ai_call_denied today st model feature u fid uid hchk, hr] at hr'
    obtain rfl : r = r' := Option.some_injective _ hr'
    exact ⟨rfl, rfl, rfl, le_refl _, le_refl _⟩
  | true =>
    rw [ai_call_granted today st model feature u fid uid hchk] at hr'
    rcases log_token_usage_ai_limit_cases st model feature u fid uid r hr with
      h | ⟨v, hu, hf, h⟩
    · rw [h] at hr'
      obtain rfl : r = r' := Option.some_injective _ hr'
      exact ⟨rfl, rfl, rfl, le_refl _, le_refl _⟩
    · rw [h] at hr'
      obtain rfl := Option.some_injective _ hr'
      refine ⟨rfl, rfl, rfl, ?_, ?_⟩
      · simp
      · rw [pyOr_some_zero]
        have := calculate_cost_nonneg model v.prompt_tokens v.completion_tokens
        linarith

/-- Witness for C3 (amended): the rollover-example call on 2025-03-02. -/
theorem C3_no_rollover_witness :
    rowRolloverAfter.reset_date = rowRollover.reset_date ∧
    rowRolloverAfter.monthly_token_limit = rowRollover.monthly_token_limit ∧
    rowRolloverAfter.monthly_cost_limit_usd = rowRollover.monthly_cost_limit_usd ∧
    rowRollover.current_month_usage ≤ rowRolloverAfter.current_month_usage ∧
    pyOr rowRollover.current_month_cost_usd 0 ≤
      pyOr rowRolloverAfter.current_month_cost_usd 0 :=
  C3_no_rollover 20250302 stRollover "gpt-4o" "homework_analysis"
    (some usageSmall) (some 1) none rowRollover rowRolloverAfter rfl
    stRollover_after

/-- Claim C7 counterexample: logging the same response twice is not the same
as logging it once — the second call appends a second ledger record (and, as
`C7_double_log` shows, adds the cost again). -/
theorem C7_counterexample :
    log_token_usage
        (log_token_usage stScenario "gpt-4o" "homework_analysis"
          (some usageSmall) (some 1) none)
        "gpt-4o" "homework_analysis" (some usageSmall) (some 1) none ≠
      log_token_usage stScenario "gpt-4o" "homework_analysis" (some usageSmall)
        (some 1) none := by
  intro h
  have hlen := congrArg (fun s => s.ledger.length) h
  rw [log_token_usage_some stScenario rowScenario "gpt-4o" "homework_analysis"
      usageSmall 1 none rfl one_ne_zero] at hlen h
  rw [log_token_usage_some _ _ "gpt-4o" "homework_analysis"
      usageSmall 1 none rfl one_ne_zero] at hlen
  simp [stScenario] at hlen

/-- Claim C7 (amended): settlement is not idempotent: there are no
reservation handles at all, and `_log_token_usage` applied twice with the
same response appends two ledger records and adds the cost to the tenant's
counter twice, where once adds it once. -/
theorem C7_double_log (st : TenantState) (model feature : String)
    (v : ResponseUsage) (f : ℤ) (uid : Option ℤ) (r : FamilyAiLimitRow)
    (hr : st.ai_limit = some r) (hf : f ≠ 0) :
    ∃ r₁ r₂,
      (log_token_usage st model feature (some v) (some f) uid).ai_limit =
        some r₁ ∧
      (log_token_usage
          (log_token_usage st model feature (some v) (some f) uid)
          model feature (some v) (some f) uid).ai_limit = some r₂ ∧
      pyOr r₁.current_month_cost_usd 0 = pyOr r.current_month_cost_usd 0 +
        calculate_cost model v.prompt_tokens v.completion_tokens ∧
      pyOr r₂.current_month_cost_usd 0 = pyOr r.current_month_cost_usd 0 +
        2 * calculate_cost model v.prompt_tokens v.completion_tokens ∧
      (log_token_usage
          (log_token_usage st model feature (some v) (some f) uid)
          model feature (some v) (some f) uid).ledger.length =
        st.ledger.length + 2 := by
  rw [log_token_usage_some st r model feature v f uid hr hf]
  rw [log_token_usage_some _ _ model feature v f uid rfl hf]
  refine ⟨_, _, rfl, rfl, ?_, ?_, ?_⟩
  · rw [pyOr_some_zero]
  · rw [pyOr_some_zero, pyOr_some_zero]
    ring
  · simp

/-- Witness for C7 (amended) at the spec's scenario tenant. -/
theorem C7_double_log_witness :
    ∃ r₁ r₂,
      (log_token_usage stScenario "gpt-4o" "homework_analysis"
          (some usageSmall) (some 1) none).ai_limit = some r₁ ∧
      (log_token_usage
          (log_token_usage stScenario "gpt-4o" "homework_analysis"
            (some usageSmall) (some 1) none)
          "gpt-4o" "homework_analysis" (some usageSmall) (some 1) none).ai_limit =
        some r₂ ∧
      pyOr r₁.current_month_cost_usd 0 =
        pyOr rowScenario.current_month_cost_usd 0 +
          calculate_cost "gpt-4o" usageSmall.prompt_tokens
            usageSmall.completion_tokens ∧
      pyOr r₂.current_month_cost_usd 0 =
        pyOr rowScenario.current_month_cost_usd 0 +
          2 * calculate_cost "gpt-4o" usageSmall.prompt_tokens
            usageSmall.completion_tokens ∧
      (log_token_usage
          (log_token_usage stScenario "gpt-4o" "homework_analysis"
            (some usageSmall) (some 1) none)
          "gpt-4o" "homework_analysis" (some usageSmall) (some 1) none).ledger.length =
        stScenario.ledger.length + 2 :=
  C7_double_log stScenario "gpt-4o" "homework_analysis" usageSmall 1 none
    rowScenario rfl one_ne_zero

lemma calculate_cost_eval (m : String) (a b : ℕ) :
    calculate_cost m a b =
      round6 ((a : ℚ)/1000 * (price_of m).1 + (b : ℚ)/1000 * (price_of m).2) := rfl

lemma cost_gpt4o_1000_0 : calculate_cost "gpt-4o" 1000 0 = 3/100 := by
  rw [calculate_cost_eval, price_of_default "gpt-4o" AI_PRICING_gpt4o]
  have h : ((1000 : ℕ) : ℚ)/1000 * ((3:ℚ)/100, (6:ℚ)/100).1 +
      ((0 : ℕ) : ℚ)/1000 * ((3:ℚ)/100, (6:ℚ)/100).2 = 3/100 := by norm_num
  rw [h, round6_int (3/100) 30000 (by norm_num)]
  norm_num

lemma cost_gpt4o_1000_500 : calculate_cost "gpt-4o" 1000 500 = 3/50 := by
  rw [calculate_cost_eval, price_of_default "gpt-4o" AI_PRICING_gpt4o]
  have h : ((1000 : ℕ) : ℚ)/1000 * ((3:ℚ)/100, (6:ℚ)/100).1 +
      ((500 : ℕ) : ℚ)/1000 * ((3:ℚ)/100, (6:ℚ)/100).2 = 3/50 := by norm_num
  rw [h, round6_int (3/50) 60000 (by norm_num)]
  norm_num

lemma run_calls_nil (t : ℤ) (fid uid : Option ℤ) (st : TenantState) :
    run_calls t fid uid [] st = st := rfl

lemma run_calls_cons (t : ℤ) (fid uid : Option ℤ)
    (c : String × String × ResponseUsage)
    (cs : List (String × String × ResponseUsage)) (st : TenantState) :
    run_calls t fid uid (c :: cs) st =
      run_calls t fid uid cs (ai_call t st c.1 c.2.1 (some c.2.2) fid uid) := rfl

/-- The cost `_log_token_usage` will add for a given optional response
usage. -/
def costOfUsage (model : String) (u : Option ResponseUsage) : ℚ :=
  match u with
  | none => 0
  | some v => calculate_cost model v.prompt_tokens v.completion_tokens

lemma ai_call_cost_step (today : ℤ) (st : TenantState) (model feature : String)
    (u : Option ResponseUsage) (fid uid : Option ℤ) (r : FamilyAiLimitRow)
    (hr : st.ai_limit = some r) :
    ∃ r', (ai_call today st model feature u fid uid).ai_limit = some r' ∧
      r'.monthly_cost_limit_usd = r.monthly_cost_limit_usd ∧
      pyOr r'.current_month_cost_usd 0 ≤
        max (pyOr r.current_month_cost_usd 0)
          (pyOr r.monthly_cost_limit_usd (1/5) + costOfUsage model u) := by
  cases hchk : check_token_limit fid st with
  | false =>
    refine ⟨r, ?_, rfl, le_max_left _ _⟩
    rw [ai_call_denied today st model feature u fid uid hchk]
    exact hr
  | true =>
    rw [ai_call_granted today st model feature u fid uid hchk]
    rcases log_token_usage_ai_limit_cases st model feature u fid uid r hr with
      h | ⟨v, hu, hf, h⟩
    · exact ⟨r, h, rfl, le_max_left _ _⟩
    · refine ⟨_, h, rfl, ?_⟩
      have hlt := check_token_limit_true_truthy fid st r hr hf hchk
      rw [pyOr_some_zero]
      have hcost : costOfUsage model u =
          calculate_cost model v.prompt_tokens v.completion_tokens := by
        rw [hu]
        rfl
      rw [hcost]
      refine le_trans ?_ (le_max_right _ _)
      linarith

/-- Claim C4 (amended): the code enforces no token bound at all (see
`C4_counterexample`), but the cost counter is bounded under sequential
execution: after any sequence of calls whose individual costs are all ≤ B,
the tenant's cost counter is at most
max(initial cost, effective cost limit + B) — the overshoot beyond the
effective limit is bounded by one call's cost. -/
theorem C4_cost_overshoot_bounded (today : ℤ) (fid uid : Option ℤ)
    (calls : List (String × String × ResponseUsage)) (B : ℚ) :
    ∀ (st : TenantState) (r : FamilyAiLimitRow), st.ai_limit = some r →
    (∀ c ∈ calls,
      calculate_cost c.1 c.2.2.prompt_tokens c.2.2.completion_tokens ≤ B) →
    ∃ r', (run_calls today fid uid calls st).ai_limit = some r' ∧
      pyOr r'.current_month_cost_usd 0 ≤
        max (pyOr r.current_month_cost_usd 0)
          (pyOr r.monthly_cost_limit_usd (1/5) + B) := by
  induction calls with
  | nil =>
    intro st r hr _
    exact ⟨r, hr, le_max_left _ _⟩
  | cons c cs ih =>
    intro st r hr hB
    obtain ⟨r₁, h₁, hlim, hbound⟩ :=
      ai_call_cost_step today st c.1 c.2.1 (some c.2.2) fid uid r hr
    obtain ⟨r', h', hb'⟩ :=
      ih (ai_call today st c.1 c.2.1 (some c.2.2) fid uid) r₁ h₁
        (fun d hd => hB d (List.mem_cons_of_mem _ hd))
    refine ⟨r', by rw [run_calls_cons]; exact h', ?_⟩
    have hcB : costOfUsage c.1 (some c.2.2) ≤ B :=
      hB c (List.mem_cons_self _ _)
    have h1 : pyOr r₁.current_month_cost_usd 0 ≤
        max (pyOr r.current_month_cost_usd 0)
          (pyOr r.monthly_cost_limit_usd (1/5) + B) := by
      refine hbound.trans (max_le_max le_rfl ?_)
      have : costOfUsage c.1 (some c.2.2) =
          calculate_cost c.1 c.2.2.prompt_tokens c.2.2.completion_tokens := rfl
      linarith [hB c (List.mem_cons_self c cs)]
    rw [hlim] at hb'
    exact hb'.trans (max_le h1 (le_max_right _ _))

/-- Witness for C4 (amended): one call at the scenario tenant with B = 1. -/
theorem C4_cost_overshoot_bounded_witness :
    ∃ r', (run_calls 20250302 (some 1) none
        [("gpt-4o", "homework_analysis", usageSmall)] stScenario).ai_limit =
          some r' ∧
      pyOr r'.current_month_cost_usd 0 ≤
        max (pyOr rowScenario.current_month_cost_usd 0)
          (pyOr rowScenario.monthly_cost_limit_usd (1/5) + 1) :=
  C4_cost_overshoot_bounded 20250302 (some 1) none
    [("gpt-4o", "homework_analysis", usageSmall)] 1 stScenario rowScenario rfl
    (by
      intro c hc
      simp only [List.mem_singleton] at hc
      subst hc
      show calculate_cost "gpt-4o" 1000 500 ≤ 1
      rw [cost_gpt4o_1000_500]
      norm_num)

/-- A tenant whose monthly token limit is 0 but whose cost limit is the
default $0.20. -/
def rowTokenZero : FamilyAiLimitRow :=
  { monthly_token_limit := 0
    current_month_usage := 0
    monthly_cost_limit_usd := some (1/5)
    current_month_cost_usd := some 0
    reset_date := none }

def stTokenZero : TenantState := { ai_limit := some rowTokenZero, ledger := [] }

/-- A response of 1000 prompt tokens and no completion tokens. -/
def usageTok : ResponseUsage :=
  { prompt_tokens := 1000, completion_tokens := 0, total_tokens := 1000 }

/-- The tenant of `stTokenZero` after one gpt-4o call with `usageTok`. -/
def rowTokenZero1 : FamilyAiLimitRow :=
  { monthly_token_limit := 0
    current_month_usage := 1000
    monthly_cost_limit_usd := some (1/5)
    current_month_cost_usd := some (3/100)
    reset_date := none }

lemma stTokenZero_after1 (feature : String) :
    ai_call 0 stTokenZero "gpt-4o" feature (some usageTok) (some 1) none =
      { ai_limit := some rowTokenZero1,
        ledger := [logged_row "gpt-4o" feature usageTok (some 1) none] } := by
  have hchk : check_token_limit (some 1) stTokenZero = true := by
    rw [check_token_limit_some 1 one_ne_zero stTokenZero rowTokenZero rfl]
    norm_num [pyOr, rowTokenZero]
  rw [ai_call_granted 0 stTokenZero "gpt-4o" feature (some usageTok) (some 1)
      none hchk,
    log_token_usage_some stTokenZero rowTokenZero "gpt-4o" feature usageTok 1
      none rfl one_ne_zero]
  simp only [stTokenZero, rowTokenZero, rowTokenZero1, usageTok]
  norm_num [pyOr, cost_gpt4o_1000_0]

/-- Claim C4 counterexample: with monthly_token_limit 0, two calls of 1000
tokens each both pass the (cost-only) check, driving the token counter to
2000 — beyond the limit (0) plus the largest single call (1000).  No token
bound of any kind is enforced. -/
theorem C4_counterexample :
    rowTokenZero.monthly_token_limit = 0 ∧
    usageTok.total_tokens = 1000 ∧
    ((ai_call 0 (ai_call 0 stTokenZero "gpt-4o" "homework_analysis"
          (some usageTok) (some 1) none)
        "gpt-4o" "worksheet_generation" (some usageTok) (some 1) none).ai_limit).map
      (fun r => r.current_month_usage) = some 2000 ∧
    ¬ ((2000 : ℤ) ≤ 0 + 1000) := by
  refine ⟨rfl, rfl, ?_, by norm_num⟩
  rw [stTokenZero_after1 "homework_analysis"]
  have hchk1 : check_token_limit (some 1)
      { ai_limit := some rowTokenZero1,
        ledger := [logged_row "gpt-4o" "homework_analysis" usageTok (some 1) none] } =
      true := by
    rw [check_token_limit_some 1 one_ne_zero _ rowTokenZero1 rfl]
    norm_num [pyOr, rowTokenZero1]
  rw [ai_call_granted _ _ _ _ _ _ _ hchk1,
    log_token_usage_some _ rowTokenZero1 "gpt-4o" "worksheet_generation"
      usageTok 1 none rfl one_ne_zero]
  simp [rowTokenZero1, usageTok]
lemma ai_call_conservation_step (today : ℤ) (st : TenantState)
    (model feature : String) (u : Option ResponseUsage) (f : ℤ)
    (uid : Option ℤ) (r : FamilyAiLimitRow) (hr : st.ai_limit = some r)
    (hf : f ≠ 0) :
    ∃ r' L, (ai_call today st model feature u (some f) uid).ai_limit = some r' ∧
      (ai_call today st model feature u (some f) uid).ledger =
        st.ledger ++ L ∧
      pyOr r'.current_month_cost_usd 0 =
        pyOr r.current_month_cost_usd 0 +
          (L.map (fun rec => rec.cost_usd)).sum := by
  cases hchk : check_token_limit (some f) st with
  | false =>
    rw [ai_call_denied today st model feature u (some f) uid hchk]
    exact ⟨r, [], hr, by simp, by simp⟩
  | true =>
    rw [ai_call_granted today st model feature u (some f) uid hchk]
    cases u with
    | none =>
      exact ⟨r, [], by simpa [log_token_usage] using hr, by simp [log_token_usage], by simp⟩
    | some v =>
      rw [log_token_usage_some st r model feature v f uid hr hf]
      refine ⟨_, [logged_row model feature v (some f) uid], rfl, rfl, ?_⟩
      rw [pyOr_some_zero]
      simp [logged_row]

/-- Claim C5: conservation — over any sequence of calls on a tenant with a
FamilyAiLimit row and a truthy family id, the cost counter grows by exactly
the sum of the `cost_usd` fields of the ledger records appended during the
sequence (denied or usage-less calls append nothing and add nothing).  In
particular, starting a period at cost 0 with an empty ledger, the final
counter equals the sum of all recorded costs, exactly — the per-record
rounding of `calculate_cost` is what both sides use. -/
theorem C5_conservation (today : ℤ) (f : ℤ) (uid : Option ℤ)
    (calls : List (String × String × ResponseUsage)) (hf : f ≠ 0) :
    ∀ (st : TenantState) (r : FamilyAiLimitRow), st.ai_limit = some r →
    ∃ r' L, (run_calls today (some f) uid calls st).ai_limit = some r' ∧
      (run_calls today (some f) uid calls st).ledger = st.ledger ++ L ∧
      pyOr r'.current_month_cost_usd 0 =
        pyOr r.current_month_cost_usd 0 +
          (L.map (fun rec => rec.cost_usd)).sum := by
  induction calls with
  | nil =>
    intro st r hr
    exact ⟨r, [], hr, by simp [run_calls_nil], by simp⟩
  | cons c cs ih =>
    intro st r hr
    obtain ⟨r₁, L₁, h₁, hl₁, hc₁⟩ :=
      ai_call_conservation_step today st c.1 c.2.1 (some c.2.2) f uid r hr hf
    obtain ⟨r', L₂, h', hl', hc'⟩ :=
      ih (ai_call today st c.1 c.2.1 (some c.2.2) (some f) uid) r₁ h₁
    refine ⟨r', L₁ ++ L₂, ?_, ?_, ?_⟩
    · rw [run_calls_cons]
      exact h'
    · rw [run_calls_cons, hl', hl₁, List.append_assoc]
    · rw [hc', hc₁, List.map_append, List.sum_append]
      ring

/-- Witness for C5 at the scenario tenant with one call. -/
theorem C5_conservation_witness :
    ∃ r' L, (run_calls 20250302 (some 1) none
        [("gpt-4o", "homework_analysis", usageSmall)] stScenario).ai_limit =
          some r' ∧
      (run_calls 20250302 (some 1) none
        [("gpt-4o", "homework_analysis", usageSmall)] stScenario).ledger =
          stScenario.ledger ++ L ∧
      pyOr r'.current_month_cost_usd 0 =
        pyOr rowScenario.current_month_cost_usd 0 +
          (L.map (fun rec => rec.cost_usd)).sum :=
  C5_conservation 20250302 1 none
    [("gpt-4o", "homework_analysis", usageSmall)] one_ne_zero stScenario
    rowScenario rfl
